import Mathlib

/-!
Verification of the Interview_chatbot application (src/ui.py).

The application is a single Streamlit page.  Its own logic consists of
four functions, which are embedded here:

* `convert_linkedin_url_to_id` (ui.py lines 9-24): pure string rewriting,
  embedded on `List Char` (a Python `str` is modelled as its list of
  characters).
* `linkedin_scrapper` (ui.py lines 27-101): calls the external
  `linkedin_api` library; the two external calls (the `Linkedin`
  constructor and `get_profile`) are modelled by an explicit environment
  `LinkedinEnv` whose fields give the outcome of each call, with `Except`
  capturing a raised exception.  Python dictionary / list / string values
  coming back from the network are modelled by the inductive type `PyVal`.
* `extract_text_from_cv` (ui.py lines 105-120): the external PDF library
  is modelled by an environment function from the uploaded bytes to either
  the ordered list of per-page texts or a raised exception.
* `summarise_linkedin_and_cv` (ui.py lines 124-149): the external Gemini
  calls are modelled by `GeminiEnv`; the embedding additionally records
  the prompt that was sent to `generate_content`, if any, so that theorems
  can speak about whether and with what prompt the external model was
  invoked.

Exceptions raised by Python code are modelled with `Except String`; a
total Lean function models the fact that the corresponding Python
function cannot let an exception escape to its caller.
-/

namespace InterviewChatbot

/-! ### A model of dynamically typed Python values -/

/-- Python values that flow through `linkedin_scrapper`: strings, lists,
dictionaries (association lists with distinct keys, as Python dict keys
are unique) and `None`. -/
inductive PyVal where
  | str  : String → PyVal
  | list : List PyVal → PyVal
  | dict : List (String × PyVal) → PyVal
  | none : PyVal

/-- `d.get(k)` on a Python dictionary: the value at the first matching
key, if any. -/
def dictGet (d : List (String × PyVal)) (k : String) : Option PyVal :=
  (d.find? (fun kv => kv.1 == k)).map (fun kv => kv.2)

/-- `d.get(k, default)` on a Python dictionary. -/
def dictGetD (d : List (String × PyVal)) (k : String) (default : PyVal) : PyVal :=
  (dictGet d k).getD default

/-- Python truthiness test (`if not profile_data`) for the values a
profile fetch can return. -/
def PyVal.falsy : PyVal → Bool
  | .str s  => s == ""
  | .list l => l.isEmpty
  | .dict d => d.isEmpty
  | .none   => true

/-! ### convert_linkedin_url_to_id (ui.py lines 9-24)

The function applies
`re.sub(r"^(https?://)?(www\.)?linkedin\.com/in/", "", profile_url)`.
The pattern is anchored at the start of the string (no MULTILINE flag),
so `re.sub` removes at most one occurrence, at position 0, and the
occurrence is one of the six concrete prefixes below.  No two of the six
prefixes are comparable (none is a prefix of another and no two match the
same string), so taking the first prefix of the input found in the list
is exactly the regex substitution. -/

/-- The six strings the anchored regex
`^(https?://)?(www\.)?linkedin\.com/in/` can match. -/
def linkedinPrefixes : List (List Char) :=
  ["https://www.linkedin.com/in/".toList,
   "https://linkedin.com/in/".toList,
   "http://www.linkedin.com/in/".toList,
   "http://linkedin.com/in/".toList,
   "www.linkedin.com/in/".toList,
   "linkedin.com/in/".toList]

/-- ui.py lines 9-24.  `if not profile_url: return ""`; then the regex
substitution; then `if profile_url.endswith(sl): profile_url = profile_url[:-1]`
where `sl` is the slash character. -/
def convert_linkedin_url_to_id (profile_url : List Char) : List Char :=
  if profile_url = [] then []
  else
    let stripped :=
      match linkedinPrefixes.find? (fun p => p.isPrefixOf profile_url) with
      | some p => profile_url.drop p.length
      | Option.none => profile_url
    if stripped.getLast? = some '/' then stripped.dropLast else stripped

example : convert_linkedin_url_to_id "https://www.linkedin.com/in/john/".toList = "john".toList := by decide
example : convert_linkedin_url_to_id "www.linkedin.com/in/john".toList = "john".toList := by decide
example : convert_linkedin_url_to_id "https://www.linkedin.com/in/john?key=value".toList
    = "john?key=value".toList := by decide
example : convert_linkedin_url_to_id "https://example.com/foo/bar?x=1".toList
    = "https://example.com/foo/bar?x=1".toList := by decide

/-! ### linkedin_scrapper (ui.py lines 27-101) -/

/-- Python iteration `for skill in v` over a dynamically typed value:
lists yield their elements, strings their one-character substrings,
dictionaries their keys; `None` raises `TypeError`. -/
def iterVal : PyVal → Except String (List PyVal)
  | .list l => .ok l
  | .str s  => .ok (s.toList.map (fun c => .str (String.singleton c)))
  | .dict d => .ok (d.map (fun kv => .str kv.1))
  | .none   => .error "TypeError: NoneType object is not iterable"

/-- `skill.get(nm, dflt)` for the string key `name` inside the list
comprehension on ui.py line 75: raises `AttributeError` when the item is
not a dictionary. -/
def skillGet : PyVal → Except String PyVal
  | .dict d => .ok (dictGetD d "name" (.str "N/A"))
  | _       => .error "AttributeError: object has no attribute get"

/-- The list comprehension on ui.py line 75: evaluate `skill.get` on
each iterated item in order, raising at the first item that has no
`get` attribute. -/
def skillNames : List PyVal → Except String (List PyVal)
  | [] => .ok []
  | skill :: rest =>
    match skillGet skill with
    | .error e => .error e
    | .ok n =>
      match skillNames rest with
      | .error e => .error e
      | .ok ns => .ok (n :: ns)

/-- ui.py lines 72-85: the keyed extraction of `headline`, `summary`,
`skills` and `certifications` from the fetched profile dictionary,
building the list `temp` that is returned on success.  The skills
comprehension can raise (when the `skills` value is not a list of
dictionaries), which the surrounding `try` block catches. -/
def dataExtract (d : List (String × PyVal)) : Except String (List (String × PyVal)) :=
  match iterVal (dictGetD d "skills" (.list [])) with
  | .error e => .error e
  | .ok items =>
    match skillNames items with
    | .error e => .error e
    | .ok names =>
      .ok [("headline", dictGetD d "headline" (.str "N/A")),
           ("summary", dictGetD d "summary" (.str "N/A")),
           ("skills", .list names),
           ("certifications", dictGetD d "certifications" (.list []))]

/-- The second component of the pair `linkedin_scrapper` returns:
either the list of (field name, value) pairs or an error string. -/
inductive ScrapData where
  | ok  : List (String × PyVal) → ScrapData
  | err : String → ScrapData

/-- Outcomes of the two external `linkedin_api` calls inside
`linkedin_scrapper`: the `Linkedin(user_email, user_password, ...)`
constructor call (ui.py line 36) and `api.get_profile(id)` (ui.py
line 51).  `Except.error e` models the call raising an exception whose
string form is `e`. -/
structure LinkedinEnv where
  login : Except String Unit
  get_profile : List Char → Except String PyVal

/-- ui.py lines 27-101.  Every external failure is caught by one of the
two `try` blocks and turned into a returned `(status, error string)`
pair; totality of this function models the fact that no exception
escapes `linkedin_scrapper`.  After a successful constructor call `api`
is not `None`, so the `if not api` branch on line 42 is not taken. -/
def linkedin_scrapper (env : LinkedinEnv) (user_email user_password : String)
    (profile_url : List Char) : String × ScrapData :=
  match env.login with
  | .error e => ("Incorrect Credentials or Login Issue", .err ("Error: " ++ e))
  | .ok _ =>
    let user_profile_id := convert_linkedin_url_to_id profile_url
    if user_profile_id = [] then
      ("Invalid Profile URL", .err "Error: Could not extract profile ID from URL.")
    else
      match env.get_profile user_profile_id with
      | .error e => ("Scraping Error", .err ("Error: " ++ e))
      | .ok profile_data =>
        if profile_data.falsy then
          ("Profile does not exist or is private", .err "Error: No data returned for profile.")
        else
          match profile_data with
          | .dict d =>
            match dataExtract d with
            | .ok temp => ("Success", .ok temp)
            | .error e => ("Scraping Error", .err ("Error: " ++ e))
          | _ => ("Unexpected Profile Data Format", .err "Error: Profile data is not a dictionary.")

/-! ### extract_text_from_cv (ui.py lines 105-120) -/

/-- The external PDF library (`pymupdf.open` and the per-page
`load_page(i).get_text` loop of ui.py lines 110-115): given the uploaded
bytes it either yields the list of page texts in page order, or raises.
A well-formed PDF is one on which the library succeeds. -/
structure PdfEnv where
  parse : List Nat → Except String (List String)

/-- ui.py lines 105-120: `None` input propagates as `None`; otherwise
the page texts are joined with a single newline, and a raised exception
is caught and rendered as an error string. -/
def extract_text_from_cv (env : PdfEnv) (uploaded_file : Option (List Nat)) : Option String :=
  match uploaded_file with
  | Option.none => Option.none
  | some bytes =>
    some (match env.parse bytes with
          | .ok full_text => String.intercalate "\n" full_text
          | .error e => "Error reading PDF: " ++ e)

/-! ### summarise_linkedin_and_cv (ui.py lines 124-149) -/

/-- Python `str.strip()`: leading and trailing whitespace removed. -/
def pyStrip (s : String) : String :=
  (((s.toList.dropWhile Char.isWhitespace).reverse.dropWhile Char.isWhitespace).reverse).asString

/-- Outcomes of the external Gemini calls inside
`summarise_linkedin_and_cv`: whether `genai.configure` together with the
`GenerativeModel` constructor (ui.py lines 129-130) raises, and the
outcome of `model.generate_content(prompt)` (ui.py line 146) as a
function of the prompt. -/
structure GeminiEnv where
  configOk : Bool
  configErr : String
  generate : String → Except String String

/-- The result of `summarise_linkedin_and_cv` together with the prompt
that was passed to `generate_content`, when that call was made at all
(`Option.none` means the external summarizer model was never invoked). -/
structure SummariseOut where
  result : String
  promptSent : Option String

/-- ui.py lines 134-138: the list `prompt_parts`, starting from the
fixed instruction and appending the CV block and the LinkedIn block when
their guards hold.  `if cv_text and cv_text.strip():` is Python
truthiness of the optional string followed by truthiness of its strip;
the LinkedIn guard additionally requires the string to differ from the
exact string `Error`. -/
def instructionPart : String :=
  "Please provide a concise summary of the candidate based on the following information."

/-- The CV block appended on ui.py line 136 when
`cv_text and cv_text.strip()` is truthy. -/
def cvParts (cv_text : Option String) : List String :=
  match cv_text with
  | some cv => if cv ≠ "" ∧ pyStrip cv ≠ "" then ["\n\n--- CV Data ---\n" ++ cv] else []
  | Option.none => []

/-- The LinkedIn block appended on ui.py line 138 when
`linkedin_data_str and linkedin_data_str.strip() and linkedin_data_str != e`
is truthy, `e` being the exact string `Error`. -/
def ldParts (linkedin_data_str : Option String) : List String :=
  match linkedin_data_str with
  | some ld =>
    if ld ≠ "" ∧ pyStrip ld ≠ "" ∧ ld ≠ "Error" then ["\n\n--- LinkedIn Data ---\n" ++ ld]
    else []
  | Option.none => []

def prompt_parts (cv_text linkedin_data_str : Option String) : List String :=
  [instructionPart] ++ cvParts cv_text ++ ldParts linkedin_data_str

/-- ui.py lines 124-149.  The key guard, the configure `try` block, the
sentinel for an instruction-only prompt, and the generation `try` block.
`promptSent` records the argument of `generate_content` when the call
happens. -/
def summarise_linkedin_and_cv (env : GeminiEnv) (api_key_gemini : String)
    (cv_text linkedin_data_str : Option String) : SummariseOut :=
  if api_key_gemini = "" then ⟨"Error: Gemini API key not provided.", Option.none⟩
  else if env.configOk = false then ⟨"Error configuring Gemini: " ++ env.configErr, Option.none⟩
  else
    let parts := prompt_parts cv_text linkedin_data_str
    if parts.length = 1 then ⟨"No CV or LinkedIn data provided to summarize.", Option.none⟩
    else
      let prompt := String.join parts
      match env.generate prompt with
      | .ok t => ⟨t, some prompt⟩
      | .error e => ⟨"Error generating summary with Gemini: " ++ e, some prompt⟩

/-! ### Helper lemmas about the prefix stripping -/

lemma isPrefixOf_append_self (P r : List Char) : P.isPrefixOf (P ++ r) = true :=
  List.isPrefixOf_iff_prefix.mpr (List.prefix_append P r)

lemma isPrefixOf_append_false (A B r : List Char) (h1 : A.isPrefixOf B = false)
    (h2 : B.isPrefixOf A = false) : A.isPrefixOf (B ++ r) = false := by
  rw [Bool.eq_false_iff]
  intro hc
  have hA : A <+: B ++ r := List.isPrefixOf_iff_prefix.mp hc
  have hB : B <+: B ++ r := List.prefix_append B r
  rcases List.prefix_or_prefix_of_prefix hA hB with h | h
  · rw [List.isPrefixOf_iff_prefix.mpr h] at h1; cases h1
  · rw [List.isPrefixOf_iff_prefix.mpr h] at h2; cases h2

lemma find?_unique {α : Type} (p : α → Bool) (l : List α) (x : α) (hx : x ∈ l)
    (hpx : p x = true) (huniq : ∀ y ∈ l, p y = true → y = x) : l.find? p = some x := by
  induction l with
  | nil => cases hx
  | cons a l ih =>
    by_cases h : p a = true
    · have hax : a = x := huniq a (List.mem_cons_self a l) h
      subst hax
      exact List.find?_cons_of_pos l h
    · have hax : a ≠ x := fun he => h (he ▸ hpx)
      have hx2 : x ∈ l := by
        rcases List.mem_cons.mp hx with rfl | hm
        · exact absurd rfl hax
        · exact hm
      rw [List.find?_cons_of_neg l h]
      exact ih hx2 (fun y hy hpy => huniq y (List.mem_cons_of_mem a hy) hpy)

/-- No two of the six regex prefixes are comparable: each pair diverges
inside the concrete characters, so at most one of them can match a given
URL and the order of the list is immaterial. -/
lemma linkedinPrefixes_incomp :
    ∀ A ∈ linkedinPrefixes, ∀ B ∈ linkedinPrefixes, A ≠ B → A.isPrefixOf B = false := by
  decide

lemma linkedinPrefixes_ne_nil : ∀ A ∈ linkedinPrefixes, A ≠ ([] : List Char) := by
  decide

lemma find?_strip (P : List Char) (hP : P ∈ linkedinPrefixes) (r : List Char) :
    linkedinPrefixes.find? (fun p => p.isPrefixOf (P ++ r)) = some P := by
  apply find?_unique _ _ P hP (isPrefixOf_append_self P r)
  intro Q hQ hpre
  by_contra hne
  have h1 := linkedinPrefixes_incomp Q hQ P hP hne
  have h2 := linkedinPrefixes_incomp P hP Q hQ (Ne.symm hne)
  rw [isPrefixOf_append_false Q P r h1 h2] at hpre
  cases hpre

/-- On an input that starts with one of the six prefixes, the extractor
drops exactly that prefix and then removes one trailing slash. -/
lemma convert_of_prefixed (P : List Char) (hP : P ∈ linkedinPrefixes) (rest : List Char) :
    convert_linkedin_url_to_id (P ++ rest) =
      if rest.getLast? = some '/' then rest.dropLast else rest := by
  unfold convert_linkedin_url_to_id
  have hne : P ++ rest ≠ [] := by
    intro h
    exact linkedinPrefixes_ne_nil P hP (List.append_eq_nil.mp h).1
  rw [if_neg hne, find?_strip P hP rest]
  simp [List.drop_left]

/-- Every one of the six prefixes contains the four characters of the
string consisting of slash, i, n, slash. -/
lemma linkedinPrefixes_contain_in :
    ∀ A ∈ linkedinPrefixes, "/in/".toList <:+: A := by
  decide

/-- On an input that starts with none of the six prefixes, the regex does
not match and only the trailing slash is removed. -/
lemma convert_of_unmatched (url : List Char)
    (hm : linkedinPrefixes.find? (fun p => p.isPrefixOf url) = Option.none) (hne : url ≠ []) :
    convert_linkedin_url_to_id url =
      if url.getLast? = some '/' then url.dropLast else url := by
  unfold convert_linkedin_url_to_id
  rw [if_neg hne, hm]

/-! ### Claims C1, C2 and C6: the URL-to-ID extractor -/

/-- Claim C1, counterexample: on a URL of the claimed form carrying a
trailing query string, the extractor does not return the bare slug; the
query string stays attached, because the code only strips the host
prefix and a trailing slash and never looks at a question mark. -/
theorem C1_counterexample :
    convert_linkedin_url_to_id "https://www.linkedin.com/in/john?key=value".toList
      ≠ "john".toList ∧
    convert_linkedin_url_to_id "https://www.linkedin.com/in/john?key=value".toList
      = "john?key=value".toList := by
  constructor
  · decide
  · decide

/-- Claim C1, amended: for every URL of the form
`(https:// | http:// | nothing) (www. | nothing) linkedin.com/in/ slug (/ | nothing)`
with no query string (the slug contains no slash), the extractor returns
exactly the slug. -/
theorem C1_theorem (proto www slug t : List Char)
    (hp : proto = "https://".toList ∨ proto = "http://".toList ∨ proto = [])
    (hw : www = "www.".toList ∨ www = [])
    (hs : ('/' : Char) ∉ slug)
    (ht : t = [] ∨ t = ['/']) :
    convert_linkedin_url_to_id (proto ++ www ++ "linkedin.com/in/".toList ++ slug ++ t)
      = slug := by
  have hmem : proto ++ www ++ "linkedin.com/in/".toList ∈ linkedinPrefixes := by
    rcases hp with rfl | rfl | rfl <;> rcases hw with rfl | rfl <;> decide
  have hre : proto ++ www ++ "linkedin.com/in/".toList ++ slug ++ t
      = (proto ++ www ++ "linkedin.com/in/".toList) ++ (slug ++ t) := by
    simp [List.append_assoc]
  rw [hre, convert_of_prefixed _ hmem]
  rcases ht with rfl | rfl
  · rw [List.append_nil]
    cases hgl : slug.getLast? with
    | none => simp
    | some c =>
      by_cases hc : c = '/'
      · subst hc
        exact absurd (List.mem_of_mem_getLast? hgl) hs
      · simp [hc]
  · rw [List.getLast?_concat, if_pos rfl, List.dropLast_concat]

theorem C1_witness :
    convert_linkedin_url_to_id
      ("https://".toList ++ "www.".toList ++ "linkedin.com/in/".toList ++ "john".toList ++ ['/'])
      = "john".toList :=
  C1_theorem "https://".toList "www.".toList "john".toList ['/']
    (Or.inl rfl) (Or.inl rfl) (by decide) (Or.inr rfl)

/-- Claim C2, counterexample: the code has no fallback to the final path
segment.  A non-empty URL with no `/in/` segment is returned unchanged
(up to a trailing slash), not reduced to its last segment with the query
removed. -/
theorem C2_counterexample :
    ("https://example.com/foo/bar?x=1".toList ≠ ([] : List Char)) ∧
    ¬ ("/in/".toList <:+: "https://example.com/foo/bar?x=1".toList) ∧
    convert_linkedin_url_to_id "https://example.com/foo/bar?x=1".toList ≠ "bar".toList ∧
    convert_linkedin_url_to_id "https://example.com/foo/bar?x=1".toList
      = "https://example.com/foo/bar?x=1".toList := by
  refine ⟨by decide, by decide, by decide, by decide⟩

/-- Claim C2, amended: for every non-empty URL containing no `/in/`
segment, the regex does not match, so the extractor returns the URL
itself with a single trailing slash removed when present — there is no
last-path-segment fallback and the query string is kept. -/
theorem C2_theorem (url : List Char) (h1 : url ≠ [])
    (h2 : ¬ ("/in/".toList <:+: url)) :
    convert_linkedin_url_to_id url
      = if url.getLast? = some '/' then url.dropLast else url := by
  apply convert_of_unmatched url _ h1
  rw [List.find?_eq_none]
  intro A hA hpre
  exact h2 ((linkedinPrefixes_contain_in A hA).trans
    (List.isPrefixOf_iff_prefix.mp hpre).isInfix)

theorem C2_witness :
    convert_linkedin_url_to_id "https://example.com/profile/".toList
      = "https://example.com/profile".toList := by
  rw [ C2_theorem "https://example.com/profile/".toList (by decide) (by decide)]
  decide

/-- Claim C6: the extractor maps the empty (or missing, which Python
treats identically through its falsiness test) URL to the empty string,
and it is a total function — no exception can escape it for any input. -/
theorem C6_theorem :
    convert_linkedin_url_to_id [] = [] ∧
      ∀ url, ∃ out, convert_linkedin_url_to_id url = out :=
  ⟨rfl, fun _ => ⟨_, rfl⟩⟩

/-! ### Claims C3 and C8: prompt assembly in summarise_linkedin_and_cv -/

lemma pyStrip_empty : pyStrip "" = "" := rfl

lemma cvParts_eq_nil (cv_text : Option String)
    (hcv : ∀ c, cv_text = some c → pyStrip c = "") : cvParts cv_text = [] := by
  cases cv_text with
  | none => rfl
  | some c =>
    have hc := hcv c rfl
    simp only [cvParts]
    rw [if_neg (fun hcond => hcond.2 hc)]

lemma ldParts_eq_nil (linkedin_data_str : Option String)
    (hld : ∀ l, linkedin_data_str = some l → pyStrip l = "" ∨ l = "Error") :
    ldParts linkedin_data_str = [] := by
  cases linkedin_data_str with
  | none => rfl
  | some l =>
    rcases hld l rfl with h | h
    · simp only [ldParts]
      rw [if_neg (fun hcond => hcond.2.1 h)]
    · simp only [ldParts]
      rw [if_neg (fun hcond => hcond.2.2 h)]

/-- Claim C3: with an API key present and the external configuration
call succeeding, when the CV text is absent or whitespace-only and the
LinkedIn string is absent, whitespace-only or the exact string `Error`,
the function returns the sentinel and `generate_content` is never
invoked. -/
theorem C3_theorem (env : GeminiEnv) (key : String) (cv_text linkedin_data_str : Option String)
    (hk : key ≠ "") (hc : env.configOk = true)
    (hcv : ∀ c, cv_text = some c → pyStrip c = "")
    (hld : ∀ l, linkedin_data_str = some l → pyStrip l = "" ∨ l = "Error") :
    summarise_linkedin_and_cv env key cv_text linkedin_data_str
      = ⟨"No CV or LinkedIn data provided to summarize.", Option.none⟩ := by
  have hparts : prompt_parts cv_text linkedin_data_str = [instructionPart] := by
    rw [prompt_parts, cvParts_eq_nil cv_text hcv, ldParts_eq_nil linkedin_data_str hld]
    rfl
  simp only [summarise_linkedin_and_cv, if_neg hk, hc]
  rw [hparts]
  rfl

theorem C3_witness :
    summarise_linkedin_and_cv ⟨true, "", fun p => Except.ok p⟩ "key" (some "  ") (some "Error")
      = ⟨"No CV or LinkedIn data provided to summarize.", Option.none⟩ :=
  C3_theorem ⟨true, "", fun p => Except.ok p⟩ "key" (some "  ") (some "Error")
    (by decide)
    rfl
    (fun c hc => by cases hc; rfl)
    (fun l hl => by cases hl; exact Or.inr rfl)

/-- When the assembled parts are more than the bare instruction, the
summariser reaches the generation call and sends it the joined parts. -/
lemma summarise_promptSent (env : GeminiEnv) (key : String)
    (cv_text linkedin_data_str : Option String)
    (hk : key ≠ "") (hc : env.configOk = true)
    (hlen : (prompt_parts cv_text linkedin_data_str).length ≠ 1) :
    (summarise_linkedin_and_cv env key cv_text linkedin_data_str).promptSent
      = some (String.join (prompt_parts cv_text linkedin_data_str)) := by
  simp only [summarise_linkedin_and_cv, if_neg hk,
    if_neg (show ¬ (env.configOk = false) by rw [hc]; decide), if_neg hlen]
  cases env.generate (String.join (prompt_parts cv_text linkedin_data_str)) <;> rfl

/-- Claim C8: whenever the LinkedIn string is non-empty after stripping
and differs from the exact string `Error`, the LinkedIn block carrying
that string is one of the prompt parts, and `generate_content` is
invoked with the joined parts as its prompt (given a key and a
successful configuration).  In particular strings that begin with
`Error fetching LinkedIn data:` pass this filter and their text is sent
to the summarizer, as the witness below shows. -/
theorem C8_theorem (env : GeminiEnv) (key : String) (cv_text : Option String) (l : String)
    (hk : key ≠ "") (hc : env.configOk = true)
    (hl : pyStrip l ≠ "") (hle : l ≠ "Error") :
    ("\n\n--- LinkedIn Data ---\n" ++ l) ∈ prompt_parts cv_text (some l) ∧
    (summarise_linkedin_and_cv env key cv_text (some l)).promptSent
      = some (String.join (prompt_parts cv_text (some l))) := by
  have hne : l ≠ "" := fun h => hl (h ▸ pyStrip_empty)
  have hld : ldParts (some l) = ["\n\n--- LinkedIn Data ---\n" ++ l] := by
    simp only [ldParts]
    rw [if_pos ⟨hne, hl, hle⟩]
  constructor
  · rw [prompt_parts, hld]
    simp
  · have hlen : (prompt_parts cv_text (some l)).length ≠ 1 := by
      rw [prompt_parts, hld]
      simp
    exact summarise_promptSent env key cv_text (some l) hk hc hlen

theorem C8_witness :
    ("\n\n--- LinkedIn Data ---\n" ++ "Error fetching LinkedIn data: bad credentials")
        ∈ prompt_parts Option.none (some "Error fetching LinkedIn data: bad credentials") ∧
    (summarise_linkedin_and_cv ⟨true, "", fun p => Except.ok p⟩ "key"
        Option.none (some "Error fetching LinkedIn data: bad credentials")).promptSent
      = some (String.join (prompt_parts Option.none
          (some "Error fetching LinkedIn data: bad credentials"))) :=
  C8_theorem ⟨true, "", fun p => Except.ok p⟩ "key" Option.none
    "Error fetching LinkedIn data: bad credentials"
    (by decide) rfl (by decide) (by decide)

/-! ### Claims C4 and C10: PDF text extraction -/

/-- Python `s.startswith(p)` for the strings involved here. -/
def strStartsWith (s p : String) : Bool := p.toList.isPrefixOf s.toList

lemma strStartsWith_append (p r : String) : strStartsWith (p ++ r) p = true := by
  have h : (p ++ r).toList = p.toList ++ r.toList := by
    simp [String.toList, String.data_append]
  rw [strStartsWith, h]
  exact isPrefixOf_append_self _ _

/-- Claim C4: when the PDF library succeeds on the uploaded bytes, the
function returns the page texts joined in page order by a single
newline; when the library raises, the exception is caught and rendered
as an error string.  The last conjunct states totality: the function
returns a value on every input, so no exception reaches the caller. -/
theorem C4_theorem (env : PdfEnv) (bytes : List Nat) :
    (∀ pages, env.parse bytes = Except.ok pages →
      extract_text_from_cv env (some bytes) = some (String.intercalate "\n" pages)) ∧
    (∀ e, env.parse bytes = Except.error e →
      extract_text_from_cv env (some bytes) = some ("Error reading PDF: " ++ e)) ∧
    (∀ uploaded_file, ∃ out, extract_text_from_cv env uploaded_file = out) := by
  refine ⟨?_, ?_, fun _ => ⟨_, rfl⟩⟩
  · intro pages h
    simp only [extract_text_from_cv, h]
  · intro e h
    simp only [extract_text_from_cv, h]

theorem C4_witness :
    extract_text_from_cv ⟨fun _ => Except.ok ["page one", "page two"]⟩ (some [37, 80, 68, 70])
      = some "page one\npage two" := by
  rw [( C4_theorem ⟨fun _ => Except.ok ["page one", "page two"]⟩ [37, 80, 68, 70]).1
    ["page one", "page two"] rfl]
  rfl

/-- Claim C10: the function returns `None` exactly on the `None` input,
and every extraction failure is reported as a string that starts with
`Error reading PDF: `, so the caller can tell the three outcomes
apart. -/
theorem C10_theorem (env : PdfEnv) :
    (∀ uploaded_file,
      extract_text_from_cv env uploaded_file = Option.none ↔ uploaded_file = Option.none) ∧
    (∀ bytes e, env.parse bytes = Except.error e →
      extract_text_from_cv env (some bytes) = some ("Error reading PDF: " ++ e) ∧
      strStartsWith ("Error reading PDF: " ++ e) "Error reading PDF: " = true) := by
  constructor
  · intro f
    cases f with
    | none => simp [extract_text_from_cv]
    | some b => simp [extract_text_from_cv]
  · intro bytes e h
    exact ⟨by simp only [extract_text_from_cv, h], strStartsWith_append _ _⟩

theorem C10_witness :
    extract_text_from_cv ⟨fun _ => Except.error "not a pdf"⟩ (some [0])
      = some ("Error reading PDF: " ++ "not a pdf") ∧
    strStartsWith ("Error reading PDF: " ++ "not a pdf") "Error reading PDF: " = true :=
  ( C10_theorem ⟨fun _ => Except.error "not a pdf"⟩).2 [0] "not a pdf" rfl

/-! ### Claim C7: external failures become display strings -/

/-- Claim C7: each of the four external call sites — LinkedIn login,
profile fetch, Gemini configuration, Gemini generation — has its
exception caught where the call is made and turned into the returned
human-readable string; both functions are total, so no exception
propagates to the caller. -/
theorem C7_theorem (lenv : LinkedinEnv) (genv : GeminiEnv)
    (user_email user_password key : String) (profile_url : List Char)
    (cv_text linkedin_data_str : Option String) (e : String) :
    (lenv.login = Except.error e →
      linkedin_scrapper lenv user_email user_password profile_url
        = ("Incorrect Credentials or Login Issue", ScrapData.err ("Error: " ++ e))) ∧
    (lenv.login = Except.ok () →
      convert_linkedin_url_to_id profile_url ≠ [] →
      lenv.get_profile (convert_linkedin_url_to_id profile_url) = Except.error e →
      linkedin_scrapper lenv user_email user_password profile_url
        = ("Scraping Error", ScrapData.err ("Error: " ++ e))) ∧
    (key ≠ "" → genv.configOk = false →
      (summarise_linkedin_and_cv genv key cv_text linkedin_data_str).result
        = "Error configuring Gemini: " ++ genv.configErr) ∧
    (key ≠ "" → genv.configOk = true →
      (prompt_parts cv_text linkedin_data_str).length ≠ 1 →
      genv.generate (String.join (prompt_parts cv_text linkedin_data_str)) = Except.error e →
      (summarise_linkedin_and_cv genv key cv_text linkedin_data_str).result
        = "Error generating summary with Gemini: " ++ e) := by
  refine ⟨?_, ?_, ?_, ?_⟩
  · intro h
    simp only [linkedin_scrapper, h]
  · intro hl hid hg
    simp only [linkedin_scrapper, hl, if_neg hid, hg]
  · intro hk hc
    simp only [summarise_linkedin_and_cv, if_neg hk, hc]
    rfl
  · intro hk hc hlen hg
    simp only [summarise_linkedin_and_cv, if_neg hk,
      if_neg (show ¬ (genv.configOk = false) by rw [hc]; decide), if_neg hlen, hg]

theorem C7_witness :
    linkedin_scrapper ⟨Except.error "bad login", fun _ => Except.error "x"⟩ "e" "p" "url".toList
      = ("Incorrect Credentials or Login Issue", ScrapData.err ("Error: " ++ "bad login")) ∧
    linkedin_scrapper ⟨Except.ok (), fun _ => Except.error "timeout"⟩ "e" "p"
        "www.linkedin.com/in/john".toList
      = ("Scraping Error", ScrapData.err ("Error: " ++ "timeout")) ∧
    (summarise_linkedin_and_cv ⟨false, "no network", fun _ => Except.ok ""⟩ "key"
        Option.none Option.none).result
      = "Error configuring Gemini: " ++ "no network" ∧
    (summarise_linkedin_and_cv ⟨true, "", fun _ => Except.error "quota"⟩ "key"
        (some "cv text") Option.none).result
      = "Error generating summary with Gemini: " ++ "quota" :=
  ⟨( C7_theorem ⟨Except.error "bad login", fun _ => Except.error "x"⟩
      ⟨true, "", fun _ => Except.ok ""⟩ "e" "p" "key" "url".toList
      Option.none Option.none "bad login").1 rfl,
   ( C7_theorem ⟨Except.ok (), fun _ => Except.error "timeout"⟩
      ⟨true, "", fun _ => Except.ok ""⟩ "e" "p" "key" "www.linkedin.com/in/john".toList
      Option.none Option.none "timeout").2.1 rfl (by decide) rfl,
   ( C7_theorem ⟨Except.ok (), fun _ => Except.error "x"⟩
      ⟨false, "no network", fun _ => Except.ok ""⟩ "e" "p" "key" "url".toList
      Option.none Option.none "x").2.2.1 (by decide) rfl,
   ( C7_theorem ⟨Except.ok (), fun _ => Except.error "x"⟩
      ⟨true, "", fun _ => Except.error "quota"⟩ "e" "p" "key" "url".toList
      (some "cv text") Option.none "quota").2.2.2 (by decide) rfl (by decide) rfl⟩

/-! ### Claims C5 and C9: keyed profile extraction -/

lemma skillNames_dicts (ds : List (List (String × PyVal))) :
    skillNames (ds.map PyVal.dict)
      = Except.ok (ds.map (fun sk => dictGetD sk "name" (PyVal.str "N/A"))) := by
  induction ds with
  | nil => rfl
  | cons a t ih => simp [skillNames, skillGet, ih]

lemma skillNames_ok_inv (items : List PyVal) (names : List PyVal)
    (h : skillNames items = Except.ok names) :
    ∃ ds : List (List (String × PyVal)), items = ds.map PyVal.dict ∧
      names = ds.map (fun sk => dictGetD sk "name" (PyVal.str "N/A")) := by
  induction items generalizing names with
  | nil =>
    refine ⟨[], rfl, ?_⟩
    simp only [skillNames] at h
    cases h
    rfl
  | cons a t ih =>
    cases a with
    | dict d0 =>
      simp only [skillNames, skillGet] at h
      cases ht : skillNames t with
      | error e => rw [ht] at h; cases h
      | ok rest =>
        rw [ht] at h
        cases h
        obtain ⟨ds, hds, hnames⟩ := ih rest ht
        exact ⟨d0 :: ds, by simp [hds], by simp [hnames]⟩
    | str s => simp only [skillNames, skillGet] at h; cases h
    | list l => simp only [skillNames, skillGet] at h; cases h
    | none => simp only [skillNames, skillGet] at h; cases h

/-- When the `skills` entry of the profile (with the default of an empty
list) is a list of dictionaries, the extraction succeeds and produces
the four pairs built on ui.py lines 82-85. -/
lemma dataExtract_eq (d : List (String × PyVal)) (skills : List (List (String × PyVal)))
    (hsk : dictGetD d "skills" (PyVal.list []) = PyVal.list (skills.map PyVal.dict)) :
    dataExtract d = Except.ok
      [("headline", dictGetD d "headline" (PyVal.str "N/A")),
       ("summary", dictGetD d "summary" (PyVal.str "N/A")),
       ("skills", PyVal.list (skills.map (fun sk => dictGetD sk "name" (PyVal.str "N/A")))),
       ("certifications", dictGetD d "certifications" (PyVal.list []))] := by
  unfold dataExtract
  rw [hsk]
  simp only [iterVal, skillNames_dicts]

/-- Looking a field up in the result of a (possibly failed) extraction. -/
def resultField (r : Except String (List (String × PyVal))) (k : String) : Option PyVal :=
  match r with
  | .ok l => dictGet l k
  | .error _ => Option.none

lemma resultField_ok_headline (x y z w : PyVal) :
    resultField (Except.ok
      [("headline", x), ("summary", y), ("skills", z), ("certifications", w)])
      "headline" = some x := rfl

lemma resultField_ok_summary (x y z w : PyVal) :
    resultField (Except.ok
      [("headline", x), ("summary", y), ("skills", z), ("certifications", w)])
      "summary" = some y := rfl

lemma resultField_ok_skills (x y z w : PyVal) :
    resultField (Except.ok
      [("headline", x), ("summary", y), ("skills", z), ("certifications", w)])
      "skills" = some z := rfl

lemma resultField_ok_certifications (x y z w : PyVal) :
    resultField (Except.ok
      [("headline", x), ("summary", y), ("skills", z), ("certifications", w)])
      "certifications" = some w := rfl

/-- Claim C5, counterexample: for a profile whose `skills` field is
present, the extraction does not return that field value unchanged: the
list of skill dictionaries is replaced by the list of their `name`
entries. -/
theorem C5_counterexample :
    dataExtract [("skills", PyVal.list [PyVal.dict [("name", PyVal.str "Python")]])]
      = Except.ok
        [("headline", PyVal.str "N/A"), ("summary", PyVal.str "N/A"),
         ("skills", PyVal.list [PyVal.str "Python"]),
         ("certifications", PyVal.list [])] ∧
    PyVal.list [PyVal.str "Python"] ≠ PyVal.list [PyVal.dict [("name", PyVal.str "Python")]] := by
  exact ⟨rfl, by simp⟩

/-- Claim C5, amended: `headline`, `summary` and `certifications` are
returned unchanged when present and degrade to `N/A`, `N/A` and the
empty list when missing; the `skills` field is not returned unchanged
but replaced by the list of each skill dictionary `name` entry (`N/A`
when a dictionary lacks one, the empty list when the field is
missing). -/
theorem C5_theorem (d : List (String × PyVal)) (skills : List (List (String × PyVal)))
    (hsk : dictGetD d "skills" (PyVal.list []) = PyVal.list (skills.map PyVal.dict)) :
    (∀ v, dictGet d "headline" = some v → resultField (dataExtract d) "headline" = some v) ∧
    (dictGet d "headline" = Option.none →
      resultField (dataExtract d) "headline" = some (PyVal.str "N/A")) ∧
    (∀ v, dictGet d "summary" = some v → resultField (dataExtract d) "summary" = some v) ∧
    (dictGet d "summary" = Option.none →
      resultField (dataExtract d) "summary" = some (PyVal.str "N/A")) ∧
    (∀ v, dictGet d "certifications" = some v →
      resultField (dataExtract d) "certifications" = some v) ∧
    (dictGet d "certifications" = Option.none →
      resultField (dataExtract d) "certifications" = some (PyVal.list [])) ∧
    resultField (dataExtract d) "skills"
      = some (PyVal.list (skills.map (fun sk => dictGetD sk "name" (PyVal.str "N/A")))) := by
  refine ⟨?_, ?_, ?_, ?_, ?_, ?_, ?_⟩
  · intro v h
    rw [dataExtract_eq d skills hsk, resultField_ok_headline, dictGetD, h]
    rfl
  · intro h
    rw [dataExtract_eq d skills hsk, resultField_ok_headline, dictGetD, h]
    rfl
  · intro v h
    rw [dataExtract_eq d skills hsk, resultField_ok_summary, dictGetD, h]
    rfl
  · intro h
    rw [dataExtract_eq d skills hsk, resultField_ok_summary, dictGetD, h]
    rfl
  · intro v h
    rw [dataExtract_eq d skills hsk, resultField_ok_certifications, dictGetD, h]
    rfl
  · intro h
    rw [dataExtract_eq d skills hsk, resultField_ok_certifications, dictGetD, h]
    rfl
  · rw [dataExtract_eq d skills hsk, resultField_ok_skills]

theorem C5_witness :
    resultField (dataExtract
        [("headline", PyVal.str "Engineer"),
         ("skills", PyVal.list [PyVal.dict [("name", PyVal.str "Go")], PyVal.dict []])])
        "headline" = some (PyVal.str "Engineer") ∧
    resultField (dataExtract
        [("headline", PyVal.str "Engineer"),
         ("skills", PyVal.list [PyVal.dict [("name", PyVal.str "Go")], PyVal.dict []])])
        "skills" = some (PyVal.list [PyVal.str "Go", PyVal.str "N/A"]) := by
  have h := C5_theorem
    [("headline", PyVal.str "Engineer"),
     ("skills", PyVal.list [PyVal.dict [("name", PyVal.str "Go")], PyVal.dict []])]
    [[("name", PyVal.str "Go")], []] rfl
  exact ⟨h.1 (PyVal.str "Engineer") rfl, h.2.2.2.2.2.2⟩

/-- Claim C9: a `Success` status can only come out of the final branch
of `linkedin_scrapper`, so the data component is the four pairs in the
fixed order headline, summary, skills, certifications, for some profile
dictionary returned by the fetch whose skills iterate to a list of
dictionaries, and the skills value is the list of each skill dictionary
`name` entry with `N/A` for a dictionary lacking one. -/
theorem C9_theorem (env : LinkedinEnv) (user_email user_password : String)
    (profile_url : List Char) (st : String) (data : ScrapData)
    (h : linkedin_scrapper env user_email user_password profile_url = (st, data))
    (hs : st = "Success") :
    ∃ (d : List (String × PyVal)) (skills : List (List (String × PyVal))),
      env.get_profile (convert_linkedin_url_to_id profile_url) = Except.ok (PyVal.dict d) ∧
      iterVal (dictGetD d "skills" (PyVal.list [])) = Except.ok (skills.map PyVal.dict) ∧
      data = ScrapData.ok
        [("headline", dictGetD d "headline" (PyVal.str "N/A")),
         ("summary", dictGetD d "summary" (PyVal.str "N/A")),
         ("skills", PyVal.list (skills.map (fun sk => dictGetD sk "name" (PyVal.str "N/A")))),
         ("certifications", dictGetD d "certifications" (PyVal.list []))] := by
  cases hl : env.login with
  | error e =>
    simp only [linkedin_scrapper, hl] at h
    cases h
    exact absurd hs (by decide)
  | ok u =>
    by_cases hid : convert_linkedin_url_to_id profile_url = []
    · simp only [linkedin_scrapper, hl, if_pos hid] at h
      cases h
      exact absurd hs (by decide)
    · cases hg : env.get_profile (convert_linkedin_url_to_id profile_url) with
      | error e =>
        simp only [linkedin_scrapper, hl, if_neg hid, hg] at h
        cases h
        exact absurd hs (by decide)
      | ok profile_data =>
        by_cases hf : profile_data.falsy = true
        · simp only [linkedin_scrapper, hl, if_neg hid, hg, if_pos hf] at h
          cases h
          exact absurd hs (by decide)
        · cases profile_data with
          | dict d =>
            cases hx : dataExtract d with
            | error e =>
              simp only [linkedin_scrapper, hl, if_neg hid, hg, if_neg hf, hx] at h
              cases h
              exact absurd hs (by decide)
            | ok temp =>
              simp only [linkedin_scrapper, hl, if_neg hid, hg, if_neg hf, hx] at h
              cases h
              cases hit : iterVal (dictGetD d "skills" (PyVal.list [])) with
              | error e =>
                simp only [dataExtract, hit] at hx
                exact Except.noConfusion hx
              | ok items =>
                cases hn : skillNames items with
                | error e2 =>
                  simp only [dataExtract, hit, hn] at hx
                  exact Except.noConfusion hx
                | ok names =>
                  simp only [dataExtract, hit, hn] at hx
                  cases hx
                  obtain ⟨ds, hds, hnames⟩ := skillNames_ok_inv items names hn
                  subst hds
                  subst hnames
                  exact ⟨d, ds, rfl, hit, rfl⟩
          | str s =>
            simp only [linkedin_scrapper, hl, if_neg hid, hg, if_neg hf] at h
            cases h
            exact absurd hs (by decide)
          | list l =>
            simp only [linkedin_scrapper, hl, if_neg hid, hg, if_neg hf] at h
            cases h
            exact absurd hs (by decide)
          | none =>
            simp only [linkedin_scrapper, hl, if_neg hid, hg, if_neg hf] at h
            cases h
            exact absurd hs (by decide)

/-- A concrete environment in which login and fetch both succeed. -/
def demoLinkedinEnv : LinkedinEnv :=
  ⟨Except.ok (), fun _ => Except.ok (PyVal.dict
    [("headline", PyVal.str "Dev"),
     ("skills", PyVal.list [PyVal.dict [("name", PyVal.str "Go")]])])⟩

theorem C9_witness :
    ∃ (d : List (String × PyVal)) (skills : List (List (String × PyVal))),
      demoLinkedinEnv.get_profile (convert_linkedin_url_to_id "linkedin.com/in/jane".toList)
        = Except.ok (PyVal.dict d) ∧
      iterVal (dictGetD d "skills" (PyVal.list [])) = Except.ok (skills.map PyVal.dict) ∧
      ScrapData.ok
        [("headline", PyVal.str "Dev"), ("summary", PyVal.str "N/A"),
         ("skills", PyVal.list [PyVal.str "Go"]), ("certifications", PyVal.list [])]
      = ScrapData.ok
        [("headline", dictGetD d "headline" (PyVal.str "N/A")),
         ("summary", dictGetD d "summary" (PyVal.str "N/A")),
         ("skills", PyVal.list (skills.map (fun sk => dictGetD sk "name" (PyVal.str "N/A")))),
         ("certifications", dictGetD d "certifications" (PyVal.list []))] :=
  C9_theorem demoLinkedinEnv "e" "p" "linkedin.com/in/jane".toList "Success"
    (ScrapData.ok
      [("headline", PyVal.str "Dev"), ("summary", PyVal.str "N/A"),
       ("skills", PyVal.list [PyVal.str "Go"]), ("certifications", PyVal.list [])])
    rfl rfl

end InterviewChatbot
